import Mathlib

/-!
Verification of the mutation-driven cache consistency protocol of the
library-management application.

The embedding follows the source:
* the query cache is the collection of cached queries held by the React Query
  client: an association list from a fingerprint (the query key, a list of
  string segments) to a cache entry (value, staleness flag, fetch timestamp);
* `invalidateQueries` with a key and `exact: false` marks stale every entry
  whose key starts with the given segments
  (src/REACT_QUERY_SETUP_GUIDE.md, section 5);
* the mutation hooks of src/unnamed/part_000 are embedded as functions from
  the mutation variables and the service action result to the new cache and
  the emitted toasts.
-/

/-- A cache fingerprint: the React Query key, an entity-type tag followed by
its parameters, for example the key consisting of the tag "books" followed by
a search term. -/
abbrev Fingerprint := List String

/-- One cached query: last known value, staleness flag and fetch timestamp. -/
structure CacheEntry (α : Type) where
  value : α
  stale : Bool
  lastFetchedAt : Nat
deriving DecidableEq

/-- The query cache of the React Query client, as an association list. -/
abbrev Cache (α : Type) := List (Fingerprint × CacheEntry α)

/-- Whether a query key starts with the given leading segments.  This is the
matching rule of invalidateQueries with exact set to false
(src/REACT_QUERY_SETUP_GUIDE.md line 1239 and following). -/
def keyStarts : Fingerprint → Fingerprint → Bool
  | [], _ => true
  | _ :: _, [] => false
  | p :: ps, k :: ks => p == k && keyStarts ps ks

/-- Mark one cache slot stale when its key matches the invalidated segments;
a non-matching slot is left untouched. -/
def markStale (k : Fingerprint) (e : Fingerprint × CacheEntry α) :
    Fingerprint × CacheEntry α :=
  if keyStarts k e.1 then (e.1, { e.2 with stale := true }) else e

/-- queryClient.invalidateQueries with the given key and exact set to false:
every entry whose fingerprint starts with the key is marked stale; no value
and no timestamp changes. -/
def invalidateMatching (k : Fingerprint) (c : Cache α) : Cache α :=
  c.map (markStale k)

/-- invalidateDashboardQueries from src/REACT_QUERY_SETUP_GUIDE.md
(section 5): invalidates the dashboard-stats and all-resources keys. -/
def invalidateDashboardQueries (c : Cache α) : Cache α :=
  invalidateMatching ["all-resources"] (invalidateMatching ["dashboard-stats"] c)

/-- entityName.slice(0, -1) from invalidateAfterResourceChange: the entity
name with its last character removed. -/
def singularOf (s : String) : String :=
  String.mk s.data.dropLast

/-- invalidateAfterResourceChange from src/REACT_QUERY_SETUP_GUIDE.md
(lines 1224-1249): invalidates the dashboard queries, then every query whose
key starts with the plural entity tag, then every query whose key starts with
the singular tag.  No entry is overwritten; all matched entries are marked
stale. -/
def invalidateAfterResourceChange (entityName : String) (c : Cache α) : Cache α :=
  invalidateMatching [singularOf entityName]
    (invalidateMatching [entityName] (invalidateDashboardQueries c))

/-- The combined staleness condition of invalidateAfterResourceChange for one
fingerprint: it matches the dashboard keys, the plural entity tag or the
singular entity tag. -/
def resourceChangeHit (entityName : String) (k : Fingerprint) : Bool :=
  keyStarts ["dashboard-stats"] k ||
    (keyStarts ["all-resources"] k ||
      (keyStarts [entityName] k || keyStarts [singularOf entityName] k))

/-- invalidateAfterBookChange, called by the book mutation hooks of
src/unnamed/part_000 (lines 105, 159, 221).  The body of
src/lib/utils/queryInvalidation.ts is not among the provided sources; the
claims cite invalidateAfterResourceChange of src/REACT_QUERY_SETUP_GUIDE.md
as its shape, so this is that helper specialised to the "books" entity. -/
def invalidateAfterBookChange (c : Cache α) : Cache α :=
  invalidateAfterResourceChange "books" c

/-- invalidateAfterBorrowChange, called by the borrow mutation hooks of
src/unnamed/part_000 (lines 533, 587, 647, 705); the guide helper
specialised to the "borrows" entity, as for `invalidateAfterBookChange`. -/
def invalidateAfterBorrowChange (c : Cache α) : Cache α :=
  invalidateAfterResourceChange "borrows" c

/-- A mutation outcome: the fresh value returned by the service, or a typed
failure message. -/
inductive MutationOutcome (α : Type)
  | success (fresh : α)
  | failure (message : String)

/-- Cache reconciliation after a mutation on the given entity: on success the
invalidation helper runs; on failure the cache is untouched
(src/unnamed/part_000, onSuccess and onError branches of every hook). -/
def reconcile (entityName : String) (o : MutationOutcome α) (c : Cache β) : Cache β :=
  match o with
  | .success _ => invalidateAfterResourceChange entityName c
  | .failure _ => c

/-- JavaScript falsy-or on strings: the empty string (covering both the empty
and the absent message of the action results) falls through to the default. -/
def jsFalsyOr (s d : String) : String :=
  if s = "" then d else s

/-- Whether the first character list starts with the second. -/
def charsStart : List Char → List Char → Bool
  | [], _ => true
  | _ :: _, [] => false
  | a :: as, b :: bs => a == b && charsStart as bs

/-- Whether the character list contains the needle as a contiguous run. -/
def charsHave (needle : List Char) : List Char → Bool
  | [] => needle.isEmpty
  | c :: t => charsStart needle (c :: t) || charsHave needle t

/-- JavaScript String.prototype.includes, used by the onError handlers of
src/unnamed/part_000 to pattern-match failure messages. -/
def strIncludes (s sub : String) : Bool :=
  charsHave sub.data s.data

/-- The shape of the server action results consumed by the mutation hooks:
a success flag, a message (the message or error field; the empty string
models an absent message, which is falsy like the empty one), and the data
payload. -/
structure ActionResult (α : Type) where
  success : Bool
  message : String
  data : α
deriving DecidableEq

/-- The severity of a toast. -/
inductive ToastKind
  | success
  | warning
  | error
deriving DecidableEq

/-- One toast surfaced by showToast: severity, title and message.  The body
of src/lib/toast.ts is not among the provided sources; the hooks of
src/unnamed/part_000 pass title and message explicitly to showToast.error
and showToast.success, which this mirrors. -/
structure Toast where
  kind : ToastKind
  title : String
  message : String
deriving DecidableEq

/-- The mutation variables of useCreateBook (src/unnamed/part_000 line 96);
only the title is observable in the toasts. -/
structure CreateBookVars where
  title : String
deriving DecidableEq

/-- The message of the Error thrown by the useCreateBook mutationFn on a
failed action result: result.message or the fixed default
(src/unnamed/part_000 line 99). -/
def createBookThrown (r : ActionResult α) : String :=
  jsFalsyOr r.message "Failed to create book"

/-- The message displayed by the useCreateBook onError handler:
error.message or the generic fallback (src/unnamed/part_000 lines 112-116). -/
def createBookDisplayedError (v : CreateBookVars) (em : String) : String :=
  jsFalsyOr em
    ("Unable to create \"" ++ v.title ++ "\". Please check your input and try again.")

/-- The full useCreateBook flow for one settled mutation
(src/unnamed/part_000 lines 92-119): on a successful action result the hook
invalidates the related queries and emits one success toast; on a failed one
the mutationFn throws and the onError handler emits one error toast without
touching the cache. -/
def createBookRun (v : CreateBookVars) (r : ActionResult δ) (c : Cache α) :
    Cache α × List Toast :=
  if r.success then
    (invalidateAfterBookChange c,
      [⟨.success, "Book Created", v.title⟩])
  else
    (c, [⟨.error, "Creation Failed", createBookDisplayedError v (createBookThrown r)⟩])

/-- The mutationFn of useCreateBook at the value level
(src/unnamed/part_000 lines 96-102): on success it returns result.data, the
fresh state from the service. -/
def createBookMutationFn (r : ActionResult α) : Except String α :=
  if r.success then .ok r.data else .error (createBookThrown r)

/-- The mutation variables of useBorrowBook (src/unnamed/part_000
lines 517-524); only the optional book title is observable in the toasts. -/
structure BorrowBookVars where
  userId : String
  bookId : String
  bookTitle : String
deriving DecidableEq

/-- The message of the Error thrown by the useBorrowBook mutationFn on a
failed action result (src/unnamed/part_000 line 527). -/
def borrowBookThrown (r : ActionResult α) : String :=
  jsFalsyOr r.message "Failed to request book"

/-- The message displayed by the useBorrowBook onError handler
(src/unnamed/part_000 lines 539-545). -/
def borrowBookDisplayedError (v : BorrowBookVars) (em : String) : String :=
  jsFalsyOr em
    ("Unable to request \"" ++ jsFalsyOr v.bookTitle "book" ++ "\". Please try again.")

/-- The mutation variables of useDeleteBook (src/unnamed/part_000
lines 207-212): the ids of the books to delete and the optional title. -/
structure DeleteBookVars where
  bookIds : List String
  bookTitle : String
deriving DecidableEq

/-- The message of the Error thrown by the useDeleteBook mutationFn on a
failed action result (src/unnamed/part_000 line 215). -/
def deleteBookThrown (r : ActionResult α) : String :=
  jsFalsyOr r.message "Failed to delete book(s)"

/-- The message displayed by the useDeleteBook onError handler
(src/unnamed/part_000 lines 232-241): error.message, or a fallback whose tail
is chosen by substring-matching "active borrows" in error.message. -/
def deleteBookDisplayedError (v : DeleteBookVars) (em : String) : String :=
  jsFalsyOr em
    ("Unable to delete "
      ++ (if v.bookIds.length = 1
          then "\"" ++ jsFalsyOr v.bookTitle "book" ++ "\""
          else toString v.bookIds.length ++ " books")
      ++ ". "
      ++ (if strIncludes em "active borrows"
          then "Books with active borrows cannot be deleted."
          else "Please try again."))

/-- The mutation variables of useApproveBorrow (src/unnamed/part_000
lines 572-578). -/
structure ApproveBorrowVars where
  recordId : String
  bookTitle : String
  userName : String
deriving DecidableEq

/-- The value returned by the useApproveBorrow mutationFn on success
(src/unnamed/part_000 line 583): an object holding only the recordId of the
request, taken from the mutation variables. -/
structure ApproveBorrowValue where
  recordId : String
deriving DecidableEq

/-- The message of the Error thrown by the useApproveBorrow mutationFn on a
failed action result (src/unnamed/part_000 line 581). -/
def approveBorrowThrown (r : ActionResult α) : String :=
  jsFalsyOr r.message "Failed to approve borrow request"

/-- The mutationFn of useApproveBorrow at the value level
(src/unnamed/part_000 lines 572-584): on success it returns the recordId
taken from the request, discarding the payload of the action result. -/
def approveBorrowMutationFn (v : ApproveBorrowVars) (r : ActionResult α) :
    Except String ApproveBorrowValue :=
  if r.success then .ok ⟨v.recordId⟩ else .error (approveBorrowThrown r)

/-- The message displayed by the useApproveBorrow onError handler
(src/unnamed/part_000 lines 597-605). -/
def approveBorrowDisplayedError (v : ApproveBorrowVars) (em : String) : String :=
  jsFalsyOr em
    ("Unable to approve borrow request for \"" ++ jsFalsyOr v.bookTitle "book" ++ "\". "
      ++ (if strIncludes em "no longer available"
          then "The book is no longer available."
          else "Please try again."))

/-- The full useApproveBorrow flow for one settled mutation
(src/unnamed/part_000 lines 568-607): on a successful action result the hook
invalidates the borrow-related queries and emits one success toast; on a
failed one the onError handler emits one error toast without touching the
cache. -/
def approveBorrowRun (v : ApproveBorrowVars) (r : ActionResult δ) (c : Cache α) :
    Cache α × List Toast :=
  if r.success then
    (invalidateAfterBorrowChange c,
      [⟨.success, "Borrow Request Approved",
        jsFalsyOr v.userName "User" ++ " can now borrow \""
          ++ jsFalsyOr v.bookTitle "Book" ++ "\"."⟩])
  else
    (c, [⟨.error, "Approval Failed", approveBorrowDisplayedError v (approveBorrowThrown r)⟩])

/-- The full useUpdateBook flow for one settled mutation
(src/unnamed/part_000 lines 141-178): on a successful action result the hook
calls invalidateAfterBookChange and emits one success toast; it performs no
direct cache write. -/
def updateBookRun (bookTitle : String) (r : ActionResult δ) (c : Cache α) :
    Cache α × List Toast :=
  if r.success then
    (invalidateAfterBookChange c,
      [⟨.success, "Book Updated",
        "\"" ++ jsFalsyOr bookTitle "Book" ++ "\" has been updated successfully."⟩])
  else
    (c, [⟨.error, "Update Failed", jsFalsyOr r.message "Failed to update book"⟩])

/-- Modelled from the spec: the write path of the Read Cache when a refetch
resolves.  The Read Cache implementation (the query store of the
data-fetching library) is not part of src/; the spec states that a write
carrying a lastFetchedAt earlier than the current one is dropped, and that
an applied write replaces the entry wholesale, clearing staleness. -/
def applyRefetchResult (e : CacheEntry α) (v : α) (t : Nat) : CacheEntry α :=
  if t < e.lastFetchedAt then e else ⟨v, false, t⟩

/-- Modelled from the spec: the state seen by readers of one stale-but-present
fingerprint — the entry, whether a refetch for it is already in flight, and
how many fetcher invocations have been issued.  The Read Cache implementation
is not part of src/; the spec states that readers of a stale entry get the
last known value immediately and share a single in-flight refetch. -/
structure StaleReadState (α : Type) where
  entry : CacheEntry α
  pendingFetch : Bool
  fetchCount : Nat
deriving DecidableEq

/-- Modelled from the spec: one read() call on the fingerprint.  A stale
entry with no refetch in flight triggers the fetcher (once) and records the
pending fetch; every caller is handed the in-memory last known value and
never blocks. -/
def readOnce (s : StaleReadState α) : α × StaleReadState α :=
  if s.entry.stale && !s.pendingFetch then
    (s.entry.value, ⟨s.entry, true, s.fetchCount + 1⟩)
  else
    (s.entry.value, s)

/-- Modelled from the spec: n read() calls on the same fingerprint, issued
during one turn of the single-threaded event loop (section 5 of the spec), so
that none of the pending refetches resolves in between. -/
def readMany : Nat → StaleReadState α → List α × StaleReadState α
  | 0, s => ([], s)
  | n + 1, s =>
    let r := readOnce s
    let rest := readMany n r.2
    (r.1 :: rest.1, rest.2)

/-- The externally observable steps of the UI flows whose ordering the spec
constrains. -/
inductive UiEvent
  | reconcileCache
  | emitToast
  | invalidateAll
  | clearCache
  | navigateProfile
  | signOutNav
deriving DecidableEq

/-- The synchronous callback phase of a successful borrow mutation: the
useBorrowBook onSuccess handler runs invalidateAfterBorrowChange and then the
success toast (src/unnamed/part_000 lines 531-537); the per-call onSuccess of
the BorrowBook component only schedules a timer
(src/components/BorrowBook.tsx lines 53-59). -/
def borrowSuccessSyncEvents : List UiEvent :=
  [.reconcileCache, .emitToast]

/-- The deferred phase of a successful borrow mutation: the setTimeout
callback of src/components/BorrowBook.tsx lines 57-59 navigates to the
profile page.  A timer callback runs only after the synchronous callback
phase of the event loop has completed, whatever its delay. -/
def borrowSuccessDeferredEvents : List UiEvent :=
  [.navigateProfile]

/-- The event trace of a successful borrow mutation followed by navigation:
the synchronous callback phase, then the deferred timer phase. -/
def borrowSuccessTrace : List UiEvent :=
  borrowSuccessSyncEvents ++ borrowSuccessDeferredEvents

/-- The event trace of handleLogout (src/unnamed/part_005 lines 270-303):
the logout toast is shown first, then invalidateAllQueries, then
queryClient.clear(), then the signOut navigation. -/
def logoutTrace : List UiEvent :=
  [.emitToast, .invalidateAll, .clearCache, .signOutNav]

/-! ## Helper lemmas -/

theorem orAbsorbRight (s b : Bool) : (s || b) || b = s || b := by
  cases s <;> cases b <;> rfl

theorem jsFalsyOr_of_ne (s d : String) (h : s ≠ "") : jsFalsyOr s d = s := by
  simp [jsFalsyOr, h]

theorem jsFalsyOr_ne_empty (s d : String) (h : d ≠ "") : jsFalsyOr s d ≠ "" := by
  unfold jsFalsyOr
  by_cases hs : s = ""
  · rw [if_pos hs]; exact h
  · rw [if_neg hs]; exact hs

theorem markStale_eq (k : Fingerprint) (e : Fingerprint × CacheEntry α) :
    markStale k e = (e.1, ⟨e.2.value, e.2.stale || keyStarts k e.1, e.2.lastFetchedAt⟩) := by
  rcases e with ⟨f, v, st, t⟩
  by_cases h : keyStarts k f = true <;> simp [markStale, h]

theorem chainMark_eq (n : String) (e : Fingerprint × CacheEntry α) :
    markStale [singularOf n] (markStale [n]
        (markStale ["all-resources"] (markStale ["dashboard-stats"] e)))
      = (e.1, ⟨e.2.value, e.2.stale || resourceChangeHit n e.1, e.2.lastFetchedAt⟩) := by
  rcases e with ⟨f, v, st, t⟩
  simp [markStale_eq, resourceChangeHit, Bool.or_assoc]

theorem invalidateAfterResourceChange_entries (n : String) (c : Cache α) :
    invalidateAfterResourceChange n c
      = c.map (fun e => (e.1, ⟨e.2.value, e.2.stale || resourceChangeHit n e.1, e.2.lastFetchedAt⟩)) := by
  unfold invalidateAfterResourceChange invalidateDashboardQueries invalidateMatching
  simp only [List.map_map]
  congr 1
  funext e
  simpa [Function.comp] using chainMark_eq n e

theorem readMany_of_pending (n : Nat) (s : StaleReadState α) (h : s.pendingFetch = true) :
    readMany n s = (List.replicate n s.entry.value, s) := by
  induction n with
  | zero => rfl
  | succ k ih =>
    have hc : (s.entry.stale && !s.pendingFetch) = false := by
      rw [h]; simp
    simp [readMany, readOnce, hc, ih, List.replicate_succ]

/-! ## Claims -/

/-- C1 counterexample: after a successful book mutation the reconciliation of
the hooks (invalidateAfterBookChange) marks the fingerprint of the directly
mutated entity type "books" stale and leaves its value untouched — it is not
overwritten in place with fresh data, contradicting the claim that the
mutated entity is overwritten and never simultaneously marked stale. -/
theorem c1_own_fingerprint_marked_stale_counterexample :
    invalidateAfterBookChange
        ([(["books"], (⟨"cached-books-page", false, 5⟩ : CacheEntry String))] : Cache String)
      = [(["books"], (⟨"cached-books-page", true, 5⟩ : CacheEntry String))] := by
  rfl

/-- C1 (amended): after a successful book mutation, reconciliation marks
stale every fingerprint matched by the invalidation helper — including the
fingerprints of the directly mutated entity type, "books" and "book" — and
overwrites no entry: every value and timestamp is preserved, only staleness
flags are raised. -/
theorem c1_reconcile_marks_own_type_stale_without_overwrite (c : Cache α) :
    invalidateAfterBookChange c
        = c.map (fun e =>
            (e.1, ⟨e.2.value, e.2.stale || resourceChangeHit "books" e.1, e.2.lastFetchedAt⟩))
      ∧ resourceChangeHit "books" ["books"] = true
      ∧ resourceChangeHit "books" ["book", "b-1"] = true :=
  ⟨invalidateAfterResourceChange_entries "books" c, by decide, by decide⟩

/-- C2: a mutation whose execution fails performs no cache mutation — the
cache after the failure handler is the cache from before the mutation — and
the only observable effect is a single failure notification. -/
theorem c2_failure_leaves_cache_untouched (v : ApproveBorrowVars) (r : ActionResult δ)
    (c : Cache α) (h : r.success = false) :
    (approveBorrowRun v r c).1 = c
      ∧ (approveBorrowRun v r c).2.map Toast.kind = [ToastKind.error] := by
  simp [approveBorrowRun, h]

theorem c2_witness :
    (approveBorrowRun ⟨"record-1", "Clean Code", "Ada"⟩
          (⟨false, "This request has already been processed", "ignored"⟩ : ActionResult String)
          ([(["borrows"], (⟨"cached", false, 3⟩ : CacheEntry String))] : Cache String)).1
        = [(["borrows"], (⟨"cached", false, 3⟩ : CacheEntry String))]
      ∧ (approveBorrowRun ⟨"record-1", "Clean Code", "Ada"⟩
          (⟨false, "This request has already been processed", "ignored"⟩ : ActionResult String)
          ([(["borrows"], (⟨"cached", false, 3⟩ : CacheEntry String))] : Cache String)).2.map Toast.kind
        = [ToastKind.error] :=
  c2_failure_leaves_cache_untouched _ _ _ rfl

/-- C3 counterexample: the useApproveBorrow executor returns a value built
from the request parameters alone — two action results carrying different
fresh service states yield the same success value — and after reconciliation
the fingerprint of the mutated entity type has its staleness flag raised,
not cleared, with its old value still in place. -/
theorem c3_synthesized_value_counterexample :
    approveBorrowMutationFn ⟨"record-123", "", ""⟩
        (⟨true, "", "fresh-service-state-A"⟩ : ActionResult String)
        = Except.ok ⟨"record-123"⟩
      ∧ approveBorrowMutationFn ⟨"record-123", "", ""⟩
          (⟨true, "", "fresh-service-state-B"⟩ : ActionResult String)
        = Except.ok ⟨"record-123"⟩
      ∧ ("fresh-service-state-A" : String) ≠ "fresh-service-state-B"
      ∧ (approveBorrowRun ⟨"record-123", "", ""⟩
            (⟨true, "", "fresh-service-state-A"⟩ : ActionResult String)
            ([(["borrows"], (⟨"old-borrows", false, 7⟩ : CacheEntry String))] : Cache String)).1
        = [(["borrows"], (⟨"old-borrows", true, 7⟩ : CacheEntry String))] :=
  ⟨rfl, rfl, by decide, rfl⟩

/-- C3 (amended): on success some executors return the fresh state from the
service — useCreateBook returns result.data — while others return a value
synthesized from the request parameters — useApproveBorrow returns an object
holding only the recordId of the request; reconciliation marks related
fingerprints stale instead of writing fresh values into them. -/
theorem c3_executor_value_provenance (r : ActionResult α) (v : ApproveBorrowVars)
    (s : ActionResult β) (h : r.success = true) (hs : s.success = true) :
    createBookMutationFn r = Except.ok r.data
      ∧ approveBorrowMutationFn v s = Except.ok ⟨v.recordId⟩ := by
  constructor <;> simp [createBookMutationFn, approveBorrowMutationFn, h, hs]

theorem c3_witness :
    createBookMutationFn (⟨true, "", "fresh-book"⟩ : ActionResult String)
        = Except.ok "fresh-book"
      ∧ approveBorrowMutationFn ⟨"rec-9", "", ""⟩ (⟨true, "", 42⟩ : ActionResult Nat)
        = Except.ok ⟨"rec-9"⟩ :=
  c3_executor_value_provenance _ _ _ rfl rfl

/-- C4: every settled useCreateBook mutation emits exactly one notification;
on failure the displayed message is the failure message of the service when
one is present, and the fixed entity-specific default otherwise. -/
theorem c4_notify_once_with_service_message (v : CreateBookVars) (r : ActionResult δ)
    (c : Cache α) :
    (createBookRun v r c).2.length = 1
      ∧ (r.success = false → r.message ≠ "" →
          (createBookRun v r c).2 = [⟨.error, "Creation Failed", r.message⟩])
      ∧ (r.success = false → r.message = "" →
          (createBookRun v r c).2 = [⟨.error, "Creation Failed", "Failed to create book"⟩]) := by
  refine ⟨?_, ?_, ?_⟩
  · by_cases h : r.success = true <;> simp [createBookRun, h]
  · intro h hm
    simp [createBookRun, h, createBookDisplayedError, createBookThrown, jsFalsyOr, hm]
  · intro h hm
    have hd : ("Failed to create book" : String) ≠ "" := by decide
    simp [createBookRun, h, createBookDisplayedError, createBookThrown, jsFalsyOr, hm, hd]

theorem c4_witness :
    (createBookRun ⟨"Dune"⟩ (⟨false, "A book with this ISBN exists", "x"⟩ : ActionResult String)
        ([] : Cache String)).2.length = 1
      ∧ ((⟨false, "A book with this ISBN exists", "x"⟩ : ActionResult String).success = false →
          ("A book with this ISBN exists" : String) ≠ "" →
          (createBookRun ⟨"Dune"⟩ (⟨false, "A book with this ISBN exists", "x"⟩ : ActionResult String)
              ([] : Cache String)).2
            = [⟨.error, "Creation Failed", "A book with this ISBN exists"⟩])
      ∧ ((⟨false, "A book with this ISBN exists", "x"⟩ : ActionResult String).success = false →
          ("A book with this ISBN exists" : String) = "" →
          (createBookRun ⟨"Dune"⟩ (⟨false, "A book with this ISBN exists", "x"⟩ : ActionResult String)
              ([] : Cache String)).2
            = [⟨.error, "Creation Failed", "Failed to create book"⟩]) :=
  c4_notify_once_with_service_message ⟨"Dune"⟩ _ _

/-- C5: reconciliation is idempotent — running reconcile twice with the same
outcome produces the same cache as running it once, for success (prefix
invalidations) and failure (no cache mutation) alike. -/
theorem c5_reconcile_idempotent (n : String) (o : MutationOutcome γ) (c : Cache α) :
    reconcile n o (reconcile n o c) = reconcile n o c := by
  cases o with
  | failure m => rfl
  | success fresh =>
    show invalidateAfterResourceChange n (invalidateAfterResourceChange n c)
        = invalidateAfterResourceChange n c
    simp only [invalidateAfterResourceChange_entries, List.map_map]
    congr 1
    funext e
    simp [Function.comp, orAbsorbRight]

/-- C6 counterexample: a book-delete failure whose message contains the
substring "active borrows" does not yield the explanation that books with
active borrows cannot be deleted — the non-empty failure message short
circuits the fallback, so the displayed message is the raw failure message,
which does not contain that explanation. -/
theorem c6_matched_explanation_not_displayed_counterexample :
    strIncludes "This book has active borrows" "active borrows" = true
      ∧ deleteBookDisplayedError ⟨["book-1"], ""⟩ "This book has active borrows"
        = "This book has active borrows"
      ∧ strIncludes "This book has active borrows"
          "Books with active borrows cannot be deleted." = false :=
  ⟨rfl, rfl, rfl⟩

/-- C6 (amended): the onError handlers embed the substring-matched
explanations only inside the fallback string selected when the failure
message is empty — where no substring can match, so the generic tail is
chosen; whenever the failure message is non-empty it is displayed verbatim
and no substring-selected explanation ever appears. -/
theorem c6_substring_match_only_in_dead_fallback (v : DeleteBookVars) (em : String)
    (h : em ≠ "") :
    deleteBookDisplayedError v em = em
      ∧ deleteBookDisplayedError v ""
        = "Unable to delete "
            ++ (if v.bookIds.length = 1
                then "\"" ++ jsFalsyOr v.bookTitle "book" ++ "\""
                else toString v.bookIds.length ++ " books")
            ++ ". " ++ "Please try again." := by
  constructor
  · simp [deleteBookDisplayedError, jsFalsyOr, h]
  · have hinc : strIncludes "" "active borrows" = false := rfl
    simp [deleteBookDisplayedError, jsFalsyOr, hinc]

theorem c6_witness :
    deleteBookDisplayedError ⟨["b-1", "b-2"], "T"⟩ "Server rejected the request"
        = "Server rejected the request"
      ∧ deleteBookDisplayedError ⟨["b-1", "b-2"], "T"⟩ ""
        = "Unable to delete "
            ++ (if (["b-1", "b-2"] : List String).length = 1
                then "\"" ++ jsFalsyOr "T" "book" ++ "\""
                else toString (["b-1", "b-2"] : List String).length ++ " books")
            ++ ". " ++ "Please try again." :=
  c6_substring_match_only_in_dead_fallback ⟨["b-1", "b-2"], "T"⟩ _ (by decide)

/-- C7: a refetch that resolves carrying a lastFetchedAt older than the one
already recorded on the entry leaves the entry unchanged — the late write is
dropped. -/
theorem c7_late_write_dropped (e : CacheEntry α) (v : α) (t : Nat)
    (h : t < e.lastFetchedAt) :
    applyRefetchResult e v t = e := by
  simp [applyRefetchResult, h]

theorem c7_witness :
    applyRefetchResult (⟨"fresh-after-mutation", true, 10⟩ : CacheEntry String)
        "late-refetch-payload" 3
      = ⟨"fresh-after-mutation", true, 10⟩ :=
  c7_late_write_dropped _ _ _ (by decide)

/-- C8: n concurrent read() calls (n at least one) on a stale-but-present
fingerprint with no refetch in flight trigger exactly one fetcher
invocation, and every reader is handed the same in-memory last known
value without blocking. -/
theorem c8_concurrent_reads_share_one_fetch (n : Nat) (s : StaleReadState α)
    (hn : 1 ≤ n) (hst : s.entry.stale = true) (hp : s.pendingFetch = false)
    (hf : s.fetchCount = 0) :
    (readMany n s).2.fetchCount = 1
      ∧ (readMany n s).1 = List.replicate n s.entry.value := by
  obtain ⟨k, rfl⟩ : ∃ k, n = k + 1 := ⟨n - 1, by omega⟩
  have hc : (s.entry.stale && !s.pendingFetch) = true := by
    rw [hst, hp]; rfl
  have h1 : readOnce s = (s.entry.value, ⟨s.entry, true, s.fetchCount + 1⟩) := by
    simp [readOnce, hc]
  have h2 := readMany_of_pending k (⟨s.entry, true, s.fetchCount + 1⟩ : StaleReadState α) rfl
  rw [hf] at h1 h2
  constructor
  · simp [readMany, h1, h2]
  · simp [readMany, h1, h2, List.replicate_succ]

theorem c8_witness :
    (readMany 3 (⟨⟨"last-known", true, 0⟩, false, 0⟩ : StaleReadState String)).2.fetchCount = 1
      ∧ (readMany 3 (⟨⟨"last-known", true, 0⟩, false, 0⟩ : StaleReadState String)).1
        = List.replicate 3 "last-known" :=
  c8_concurrent_reads_share_one_fetch 3 _ (by decide) rfl rfl rfl

/-- C9: in the borrow success flow, cache reconciliation happens before the
navigation to the profile page (the navigation lives in a deferred timer
phase that follows the synchronous callback phase); in the logout flow, the
user notification is emitted before the query cache is cleared. -/
theorem c9_reconcile_before_navigate_and_notify_before_clear :
    borrowSuccessTrace.indexOf UiEvent.reconcileCache
        < borrowSuccessTrace.indexOf UiEvent.navigateProfile
      ∧ logoutTrace.indexOf UiEvent.emitToast < logoutTrace.indexOf UiEvent.clearCache := by
  constructor <;> decide

/-- C10: for the mutation hooks, the message thrown on a failed action result
(result message or the fixed operation-specific default) is never empty, so
the onError handlers display that message itself and the fallback string
built after the disjunction — the one embedding the substring-matched
explanations — is never displayed. -/
theorem c10_thrown_message_nonempty_fallback_dead (vc : CreateBookVars)
    (vb : BorrowBookVars) (vd : DeleteBookVars) (r : ActionResult α)
    (s : ActionResult β) (t : ActionResult γ) :
    (createBookThrown r ≠ ""
        ∧ createBookDisplayedError vc (createBookThrown r) = createBookThrown r)
      ∧ (borrowBookThrown s ≠ ""
        ∧ borrowBookDisplayedError vb (borrowBookThrown s) = borrowBookThrown s)
      ∧ (deleteBookThrown t ≠ ""
        ∧ deleteBookDisplayedError vd (deleteBookThrown t) = deleteBookThrown t) := by
  have h1 : createBookThrown r ≠ "" := jsFalsyOr_ne_empty _ _ (by decide)
  have h2 : borrowBookThrown s ≠ "" := jsFalsyOr_ne_empty _ _ (by decide)
  have h3 : deleteBookThrown t ≠ "" := jsFalsyOr_ne_empty _ _ (by decide)
  exact ⟨⟨h1, jsFalsyOr_of_ne _ _ h1⟩, ⟨h2, jsFalsyOr_of_ne _ _ h2⟩,
    ⟨h3, jsFalsyOr_of_ne _ _ h3⟩⟩
